import Mathlib

/-!
# Deploy-and-mint script of the SVGNFT repository

Shallow embedding of `deploy/01_deploy_svgnft.js`.  The script is one
straight-line `async` function.  Every `await`ed collaborator (hardhat-deploy,
ethers, the file system, the chain-id table) is a field of `Env` returning
`Except Error _`; a rejected promise or a thrown exception is `Except.error` and
ends the run, because the script has no `try`/`catch`.  `run` returns the trace
of collaborator calls and log lines in program order together with the outcome
of the function.
-/

namespace SVGNFTDeploy

/-- A JavaScript exception or promise rejection reaching the script. -/
inductive Error where
  /-- Runtime `TypeError`, raised by reading a property of `undefined`. -/
  | typeError (msg : String)
  /-- A rejection or exception coming from a collaborator. -/
  | rejected (msg : String)
  deriving DecidableEq, Repr

/-- Result of `getNamedAccounts()`; the script destructures `deployer`. -/
structure NamedAccounts where
  deployer : String
  deriving DecidableEq, Repr

/-- Options object given to `deploy`: `{ from: deployer, log: true }`
(`from` is written `sender`, `from` being reserved). -/
structure DeployOptions where
  sender : String
  log : Bool
  deriving DecidableEq, Repr

/-- ABI-equivalent interface descriptor. -/
structure Interface where
  abi : List String
  deriving DecidableEq, Repr

/-- What `deploy` resolves to: the script reads `.address`; `.abi` is the
interface descriptor of the deployment record. -/
structure DeployResult where
  address : String
  abi : Interface
  deriving DecidableEq, Repr

/-- What `ethers.getContractFactory` resolves to: the script reads `.interface`. -/
structure ContractFactory where
  interface : Interface
  deriving DecidableEq, Repr

/-- An ethers signer. -/
structure Signer where
  address : String
  deriving DecidableEq, Repr

/-- The object built by `new ethers.Contract(address, interface, signer)`.
`accounts[0]` of an empty array is `undefined`, hence the `Option`. -/
structure Contract where
  address : String
  interface : Interface
  signer : Option Signer
  deriving DecidableEq, Repr

/-- An entry of `networkConfig`; the script reads `.name`. -/
structure NetworkEntry where
  name : String
  deriving DecidableEq, Repr

/-- What `svgNFT.create(svg)` resolves to. -/
structure TransactionResponse where
  hash : String
  deriving DecidableEq, Repr

/-- What `transactionResponse.wait(1)` resolves to. -/
structure TransactionReceipt where
  transactionHash : String
  confirmations : Nat
  deriving DecidableEq, Repr

/-- The collaborators of the script.  `networkConfig` is the table exported by
`helper-hardhat-config`, taken as a parameter: a chain id without an entry
reads as `undefined` (`none`). -/
structure Env where
  getNamedAccounts : Except Error NamedAccounts
  getChainId : Except Error String
  deploy : String → DeployOptions → Except Error DeployResult
  readFileSync : String → String → Except Error String
  getContractFactory : String → Except Error ContractFactory
  getSigners : Except Error (List Signer)
  /-- The exception thrown by the `ethers.Contract` constructor, if any. -/
  contractThrows : String → Interface → Option Signer → Option Error
  networkConfig : String → Option NetworkEntry
  create : Contract → String → Except Error TransactionResponse
  wait : TransactionResponse → Nat → Except Error TransactionReceipt
  tokenURI : Contract → Nat → Except Error String

/-- One observable action of the script, in program order. -/
inductive Event where
  | getNamedAccounts
  | getChainId
  | log (line : String)
  | deploy (name : String) (options : DeployOptions)
  | readFileSync (path : String) (encoding : String)
  | getContractFactory (name : String)
  | getSigners
  | newContract (address : String) (interface : Interface) (signer : Option Signer)
  | networkConfig (chainId : String)
  | create (contract : Contract) (svg : String)
  | wait (tx : TransactionResponse) (confirmations : Nat)
  | tokenURI (contract : Contract) (index : Nat)
  deriving DecidableEq, Repr

/-- The separator logged first: `log("---------------")`. -/
def separatorLine : String := "---------------"

/-- Line 18 of the script. -/
def deployedLine (address : String) : String :=
  "You have deployed an NFT contract to " ++ address

/-- Lines 31-33 of the script. -/
def verifyLine (networkName address : String) : String :=
  "Verify with:\n npx hardhat verify --network " ++ networkName ++ " " ++ address

/-- Line 37 of the script. -/
def createdLine : String := "NFT has been successfully created"

/-- Line 38 of the script; the template has two blanks after the colon. -/
def tokenURILine (uri : String) : String := "token URI:  " ++ uri

/-- The fixed path of the seed asset. -/
def filePath : String := "./images/star.svg"

/-- `TypeError` of `networkConfig[chainId].name` when the entry is `undefined`. -/
def undefinedNameError : Error :=
  Error.typeError "Cannot read properties of undefined (reading name)"

/-- Outcome of a run: the trace so far and the result of the `async` function. -/
abbrev Outcome := List Event × Except Error Unit

/-- Lines 35-38: mint, wait for one confirmation, report. -/
def mintAndReport (env : Env) (t : List Event) (svgNFT : Contract) (svg : String) : Outcome :=
  let t := t ++ [Event.create svgNFT svg]
  match env.create svgNFT svg with
  | .error e => (t, .error e)
  | .ok transactionResponse =>
  let t := t ++ [Event.wait transactionResponse 1]
  match env.wait transactionResponse 1 with
  | .error e => (t, .error e)
  | .ok _receipt =>
  let t := t ++ [Event.log createdLine]
  let t := t ++ [Event.tokenURI svgNFT 0]
  match env.tokenURI svgNFT 0 with
  | .error e => (t, .error e)
  | .ok uri => (t ++ [Event.log (tokenURILine uri)], .ok ())

/-- Lines 20-33: read the asset, bind the contract handle, look the network
name up and log the verification command; then `mintAndReport`. -/
def bindAndVerify (env : Env) (t : List Event) (chainId : String) (SVGNFT : DeployResult) :
    Outcome :=
  let t := t ++ [Event.readFileSync filePath "utf-8"]
  match env.readFileSync filePath "utf-8" with
  | .error e => (t, .error e)
  | .ok svg =>
  let t := t ++ [Event.getContractFactory "SVGNFT"]
  match env.getContractFactory "SVGNFT" with
  | .error e => (t, .error e)
  | .ok svgNFTContract =>
  let t := t ++ [Event.getSigners]
  match env.getSigners with
  | .error e => (t, .error e)
  | .ok accounts =>
  let signer := accounts.head?
  let t := t ++ [Event.newContract SVGNFT.address svgNFTContract.interface signer]
  match env.contractThrows SVGNFT.address svgNFTContract.interface signer with
  | some e => (t, .error e)
  | none =>
  let svgNFT : Contract := ⟨SVGNFT.address, svgNFTContract.interface, signer⟩
  let t := t ++ [Event.networkConfig chainId]
  match env.networkConfig chainId with
  | none => (t, .error undefinedNameError)
  | some entry =>
  let networkName := entry.name
  let t := t ++ [Event.log (verifyLine networkName svgNFT.address)]
  mintAndReport env t svgNFT svg

/-- The exported deploy function, lines 6-39. -/
def run (env : Env) : Outcome :=
  let t := [Event.getNamedAccounts]
  match env.getNamedAccounts with
  | .error e => (t, .error e)
  | .ok named =>
  let deployer := named.deployer
  let t := t ++ [Event.getChainId]
  match env.getChainId with
  | .error e => (t, .error e)
  | .ok chainId =>
  let t := t ++ [Event.log separatorLine]
  let t := t ++ [Event.deploy "SVGNFT" ⟨deployer, true⟩]
  match env.deploy "SVGNFT" ⟨deployer, true⟩ with
  | .error e => (t, .error e)
  | .ok SVGNFT =>
  let t := t ++ [Event.log (deployedLine SVGNFT.address)]
  bindAndVerify env t chainId SVGNFT

/-- The trace of a run. -/
def trace (env : Env) : List Event := (run env).1

/-- The result of a run. -/
def result (env : Env) : Except Error Unit := (run env).2

/-- The values the collaborators return in a run where each call succeeds. -/
structure Returns where
  named : NamedAccounts
  chainId : String
  SVGNFT : DeployResult
  svg : String
  svgNFTContract : ContractFactory
  accounts : List Signer
  entry : NetworkEntry
  transactionResponse : TransactionResponse
  receipt : TransactionReceipt
  uri : String
  deriving DecidableEq, Repr

/-- The handle bound at lines 25-29 from the returned values. -/
def Returns.svgNFT (r : Returns) : Contract :=
  ⟨r.SVGNFT.address, r.svgNFTContract.interface, r.accounts.head?⟩

/-- Every call up to and including `transactionResponse.wait(1)` succeeds in
`env`, returning the values of `r` (the `uri` field is not constrained). -/
structure MintConfirmed (env : Env) (r : Returns) : Prop where
  getNamedAccounts : env.getNamedAccounts = .ok r.named
  getChainId : env.getChainId = .ok r.chainId
  deploy : env.deploy "SVGNFT" ⟨r.named.deployer, true⟩ = .ok r.SVGNFT
  readFileSync : env.readFileSync filePath "utf-8" = .ok r.svg
  getContractFactory : env.getContractFactory "SVGNFT" = .ok r.svgNFTContract
  getSigners : env.getSigners = .ok r.accounts
  newContract :
    env.contractThrows r.SVGNFT.address r.svgNFTContract.interface r.accounts.head? = none
  networkConfig : env.networkConfig r.chainId = some r.entry
  create : env.create r.svgNFT r.svg = .ok r.transactionResponse
  wait : env.wait r.transactionResponse 1 = .ok r.receipt

/-- Every collaborator call of the script succeeds in `env`, returning `r`. -/
structure AllSucceed (env : Env) (r : Returns) : Prop where
  confirmed : MintConfirmed env r
  tokenURI : env.tokenURI r.svgNFT 0 = .ok r.uri

/-- The call `ev` fails with `e` in `env`.  Logging never fails; the table
lookup fails with the `TypeError` of reading `.name` of `undefined`. -/
def FailsWith (env : Env) (e : Error) : Event → Prop
  | .getNamedAccounts => env.getNamedAccounts = .error e
  | .getChainId => env.getChainId = .error e
  | .log _ => False
  | .deploy name options => env.deploy name options = .error e
  | .readFileSync path encoding => env.readFileSync path encoding = .error e
  | .getContractFactory name => env.getContractFactory name = .error e
  | .getSigners => env.getSigners = .error e
  | .newContract address interface signer => env.contractThrows address interface signer = some e
  | .networkConfig chainId => env.networkConfig chainId = none ∧ e = undefinedNameError
  | .create contract svg => env.create contract svg = .error e
  | .wait tx confirmations => env.wait tx confirmations = .error e
  | .tokenURI contract index => env.tokenURI contract index = .error e

/-- The text of a log event. -/
def Event.logLine : Event → Option String
  | .log line => some line
  | _ => none

/-- The lines logged by the script itself, in order. -/
def logLines (t : List Event) : List String := t.filterMap Event.logLine

/-- Calls of `deploy`. -/
def Event.isDeploy : Event → Bool
  | .deploy _ _ => true
  | _ => false

/-- Constructions of the contract handle. -/
def Event.isNewContract : Event → Bool
  | .newContract _ _ _ => true
  | _ => false

/-- Calls of `create`. -/
def Event.isCreate : Event → Bool
  | .create _ _ => true
  | _ => false

/-- Calls of `wait`. -/
def Event.isWait : Event → Bool
  | .wait _ _ => true
  | _ => false

/-- Calls of `tokenURI`. -/
def Event.isTokenURI : Event → Bool
  | .tokenURI _ _ => true
  | _ => false

/-- The handle a `create` or `tokenURI` call is made on. -/
def Event.contract : Event → Option Contract
  | .create c _ => some c
  | .tokenURI c _ => some c
  | _ => none

/-- The handles used for `create` and `tokenURI` in a trace. -/
def contractsUsed (t : List Event) : List Contract := t.filterMap Event.contract

/-- The index argument of a `tokenURI` call. -/
def Event.tokenIndex : Event → Option Nat
  | .tokenURI _ i => some i
  | _ => none

/-- The indices read with `tokenURI` in a trace. -/
def tokenURIIndices (t : List Event) : List Nat := t.filterMap Event.tokenIndex

/-- The five components of the pipeline. -/
inductive Step where
  | resolver
  | deployer
  | binder
  | mint
  | reporter
  deriving DecidableEq, Repr

/-- Position of a component in the order resolver, deployer, binder, mint, reporter. -/
def Step.rank : Step → Nat
  | .resolver => 0
  | .deployer => 1
  | .binder => 2
  | .mint => 3
  | .reporter => 4

/-- The component a call belongs to: the chain id read and the network name
lookup are the resolver, `deploy` the deployer, the handle construction the
binder, `create` and `wait` the mint, `tokenURI` the reporter. -/
def Event.step : Event → Option Step
  | .getChainId => some .resolver
  | .networkConfig _ => some .resolver
  | .deploy _ _ => some .deployer
  | .newContract _ _ _ => some .binder
  | .create _ _ => some .mint
  | .wait _ _ => some .mint
  | .tokenURI _ _ => some .reporter
  | _ => none

/-- The components visited by a trace, in order. -/
def steps (t : List Event) : List Step := t.filterMap Event.step

/-- Modelled from the spec: the SVGNFT contract, whose Solidity source is not
among the sources, as a token counter; `create` assigns the next index. -/
structure SVGNFTState where
  tokenCounter : Nat
  deriving DecidableEq, Repr

/-- Modelled from the spec: `create(content) -> implicit token index`; the
index assigned is the current counter, which is then incremented. -/
def SVGNFTState.create (s : SVGNFTState) : Nat × SVGNFTState :=
  (s.tokenCounter, ⟨s.tokenCounter + 1⟩)

/-- Modelled from the spec: the indices assigned to the `create` calls of a
trace when they are replayed, in order, on the token counter. -/
def assignedIndices : SVGNFTState → List Event → List Nat
  | _, [] => []
  | s, .create _ _ :: t => s.create.1 :: assignedIndices s.create.2 t
  | s, _ :: t => assignedIndices s t

/-- First character of a line. -/
def firstChar (s : String) : Option Char := s.data.head?

/-- `P` holds at every position of the list: `EachSplit P acc t` visits each
element of `t` with the elements before it (after `acc`) and after it. -/
def EachSplit (P : List Event → Event → List Event → Prop) :
    List Event → List Event → Prop
  | _, [] => True
  | acc, ev :: post => P acc ev post ∧ EachSplit P (acc ++ [ev]) post

/-- The twelve ways a run can end, one per exit point of the script, each
with the calls that succeeded before it, its trace and its result. -/
inductive RunCase (env : Env) : Outcome → Prop
  | getNamedAccountsFails (e : Error)
      (h1 : env.getNamedAccounts = .error e) :
      RunCase env ([.getNamedAccounts], .error e)
  | getChainIdFails (named : NamedAccounts) (e : Error)
      (h1 : env.getNamedAccounts = .ok named)
      (h2 : env.getChainId = .error e) :
      RunCase env ([.getNamedAccounts, .getChainId], .error e)
  | deployFails (named : NamedAccounts) (chainId : String) (e : Error)
      (h1 : env.getNamedAccounts = .ok named)
      (h2 : env.getChainId = .ok chainId)
      (h3 : env.deploy "SVGNFT" ⟨named.deployer, true⟩ = .error e) :
      RunCase env
        ([.getNamedAccounts, .getChainId, .log separatorLine,
          .deploy "SVGNFT" ⟨named.deployer, true⟩], .error e)
  | readFileSyncFails (named : NamedAccounts) (chainId : String) (d : DeployResult) (e : Error)
      (h1 : env.getNamedAccounts = .ok named)
      (h2 : env.getChainId = .ok chainId)
      (h3 : env.deploy "SVGNFT" ⟨named.deployer, true⟩ = .ok d)
      (h4 : env.readFileSync filePath "utf-8" = .error e) :
      RunCase env
        ([.getNamedAccounts, .getChainId, .log separatorLine,
          .deploy "SVGNFT" ⟨named.deployer, true⟩, .log (deployedLine d.address),
          .readFileSync filePath "utf-8"], .error e)
  | getContractFactoryFails (named : NamedAccounts) (chainId : String) (d : DeployResult)
      (svg : String) (e : Error)
      (h1 : env.getNamedAccounts = .ok named)
      (h2 : env.getChainId = .ok chainId)
      (h3 : env.deploy "SVGNFT" ⟨named.deployer, true⟩ = .ok d)
      (h4 : env.readFileSync filePath "utf-8" = .ok svg)
      (h5 : env.getContractFactory "SVGNFT" = .error e) :
      RunCase env
        ([.getNamedAccounts, .getChainId, .log separatorLine,
          .deploy "SVGNFT" ⟨named.deployer, true⟩, .log (deployedLine d.address),
          .readFileSync filePath "utf-8", .getContractFactory "SVGNFT"], .error e)
  | getSignersFails (named : NamedAccounts) (chainId : String) (d : DeployResult)
      (svg : String) (f : ContractFactory) (e : Error)
      (h1 : env.getNamedAccounts = .ok named)
      (h2 : env.getChainId = .ok chainId)
      (h3 : env.deploy "SVGNFT" ⟨named.deployer, true⟩ = .ok d)
      (h4 : env.readFileSync filePath "utf-8" = .ok svg)
      (h5 : env.getContractFactory "SVGNFT" = .ok f)
      (h6 : env.getSigners = .error e) :
      RunCase env
        ([.getNamedAccounts, .getChainId, .log separatorLine,
          .deploy "SVGNFT" ⟨named.deployer, true⟩, .log (deployedLine d.address),
          .readFileSync filePath "utf-8", .getContractFactory "SVGNFT", .getSigners], .error e)
  | newContractFails (named : NamedAccounts) (chainId : String) (d : DeployResult)
      (svg : String) (f : ContractFactory) (accounts : List Signer) (e : Error)
      (h1 : env.getNamedAccounts = .ok named)
      (h2 : env.getChainId = .ok chainId)
      (h3 : env.deploy "SVGNFT" ⟨named.deployer, true⟩ = .ok d)
      (h4 : env.readFileSync filePath "utf-8" = .ok svg)
      (h5 : env.getContractFactory "SVGNFT" = .ok f)
      (h6 : env.getSigners = .ok accounts)
      (h7 : env.contractThrows d.address f.interface accounts.head? = some e) :
      RunCase env
        ([.getNamedAccounts, .getChainId, .log separatorLine,
          .deploy "SVGNFT" ⟨named.deployer, true⟩, .log (deployedLine d.address),
          .readFileSync filePath "utf-8", .getContractFactory "SVGNFT", .getSigners,
          .newContract d.address f.interface accounts.head?], .error e)
  | networkConfigFails (named : NamedAccounts) (chainId : String) (d : DeployResult)
      (svg : String) (f : ContractFactory) (accounts : List Signer)
      (h1 : env.getNamedAccounts = .ok named)
      (h2 : env.getChainId = .ok chainId)
      (h3 : env.deploy "SVGNFT" ⟨named.deployer, true⟩ = .ok d)
      (h4 : env.readFileSync filePath "utf-8" = .ok svg)
      (h5 : env.getContractFactory "SVGNFT" = .ok f)
      (h6 : env.getSigners = .ok accounts)
      (h7 : env.contractThrows d.address f.interface accounts.head? = none)
      (h8 : env.networkConfig chainId = none) :
      RunCase env
        ([.getNamedAccounts, .getChainId, .log separatorLine,
          .deploy "SVGNFT" ⟨named.deployer, true⟩, .log (deployedLine d.address),
          .readFileSync filePath "utf-8", .getContractFactory "SVGNFT", .getSigners,
          .newContract d.address f.interface accounts.head?, .networkConfig chainId],
         .error undefinedNameError)
  | createFails (named : NamedAccounts) (chainId : String) (d : DeployResult)
      (svg : String) (f : ContractFactory) (accounts : List Signer) (entry : NetworkEntry)
      (e : Error)
      (h1 : env.getNamedAccounts = .ok named)
      (h2 : env.getChainId = .ok chainId)
      (h3 : env.deploy "SVGNFT" ⟨named.deployer, true⟩ = .ok d)
      (h4 : env.readFileSync filePath "utf-8" = .ok svg)
      (h5 : env.getContractFactory "SVGNFT" = .ok f)
      (h6 : env.getSigners = .ok accounts)
      (h7 : env.contractThrows d.address f.interface accounts.head? = none)
      (h8 : env.networkConfig chainId = some entry)
      (h9 : env.create ⟨d.address, f.interface, accounts.head?⟩ svg = .error e) :
      RunCase env
        ([.getNamedAccounts, .getChainId, .log separatorLine,
          .deploy "SVGNFT" ⟨named.deployer, true⟩, .log (deployedLine d.address),
          .readFileSync filePath "utf-8", .getContractFactory "SVGNFT", .getSigners,
          .newContract d.address f.interface accounts.head?, .networkConfig chainId,
          .log (verifyLine entry.name d.address),
          .create ⟨d.address, f.interface, accounts.head?⟩ svg], .error e)
  | waitFails (named : NamedAccounts) (chainId : String) (d : DeployResult)
      (svg : String) (f : ContractFactory) (accounts : List Signer) (entry : NetworkEntry)
      (tx : TransactionResponse) (e : Error)
      (h1 : env.getNamedAccounts = .ok named)
      (h2 : env.getChainId = .ok chainId)
      (h3 : env.deploy "SVGNFT" ⟨named.deployer, true⟩ = .ok d)
      (h4 : env.readFileSync filePath "utf-8" = .ok svg)
      (h5 : env.getContractFactory "SVGNFT" = .ok f)
      (h6 : env.getSigners = .ok accounts)
      (h7 : env.contractThrows d.address f.interface accounts.head? = none)
      (h8 : env.networkConfig chainId = some entry)
      (h9 : env.create ⟨d.address, f.interface, accounts.head?⟩ svg = .ok tx)
      (h10 : env.wait tx 1 = .error e) :
      RunCase env
        ([.getNamedAccounts, .getChainId, .log separatorLine,
          .deploy "SVGNFT" ⟨named.deployer, true⟩, .log (deployedLine d.address),
          .readFileSync filePath "utf-8", .getContractFactory "SVGNFT", .getSigners,
          .newContract d.address f.interface accounts.head?, .networkConfig chainId,
          .log (verifyLine entry.name d.address),
          .create ⟨d.address, f.interface, accounts.head?⟩ svg, .wait tx 1], .error e)
  | tokenURIFails (named : NamedAccounts) (chainId : String) (d : DeployResult)
      (svg : String) (f : ContractFactory) (accounts : List Signer) (entry : NetworkEntry)
      (tx : TransactionResponse) (receipt : TransactionReceipt) (e : Error)
      (h1 : env.getNamedAccounts = .ok named)
      (h2 : env.getChainId = .ok chainId)
      (h3 : env.deploy "SVGNFT" ⟨named.deployer, true⟩ = .ok d)
      (h4 : env.readFileSync filePath "utf-8" = .ok svg)
      (h5 : env.getContractFactory "SVGNFT" = .ok f)
      (h6 : env.getSigners = .ok accounts)
      (h7 : env.contractThrows d.address f.interface accounts.head? = none)
      (h8 : env.networkConfig chainId = some entry)
      (h9 : env.create ⟨d.address, f.interface, accounts.head?⟩ svg = .ok tx)
      (h10 : env.wait tx 1 = .ok receipt)
      (h11 : env.tokenURI ⟨d.address, f.interface, accounts.head?⟩ 0 = .error e) :
      RunCase env
        ([.getNamedAccounts, .getChainId, .log separatorLine,
          .deploy "SVGNFT" ⟨named.deployer, true⟩, .log (deployedLine d.address),
          .readFileSync filePath "utf-8", .getContractFactory "SVGNFT", .getSigners,
          .newContract d.address f.interface accounts.head?, .networkConfig chainId,
          .log (verifyLine entry.name d.address),
          .create ⟨d.address, f.interface, accounts.head?⟩ svg, .wait tx 1,
          .log createdLine, .tokenURI ⟨d.address, f.interface, accounts.head?⟩ 0], .error e)
  | succeeds (named : NamedAccounts) (chainId : String) (d : DeployResult)
      (svg : String) (f : ContractFactory) (accounts : List Signer) (entry : NetworkEntry)
      (tx : TransactionResponse) (receipt : TransactionReceipt) (uri : String)
      (h1 : env.getNamedAccounts = .ok named)
      (h2 : env.getChainId = .ok chainId)
      (h3 : env.deploy "SVGNFT" ⟨named.deployer, true⟩ = .ok d)
      (h4 : env.readFileSync filePath "utf-8" = .ok svg)
      (h5 : env.getContractFactory "SVGNFT" = .ok f)
      (h6 : env.getSigners = .ok accounts)
      (h7 : env.contractThrows d.address f.interface accounts.head? = none)
      (h8 : env.networkConfig chainId = some entry)
      (h9 : env.create ⟨d.address, f.interface, accounts.head?⟩ svg = .ok tx)
      (h10 : env.wait tx 1 = .ok receipt)
      (h11 : env.tokenURI ⟨d.address, f.interface, accounts.head?⟩ 0 = .ok uri) :
      RunCase env
        ([.getNamedAccounts, .getChainId, .log separatorLine,
          .deploy "SVGNFT" ⟨named.deployer, true⟩, .log (deployedLine d.address),
          .readFileSync filePath "utf-8", .getContractFactory "SVGNFT", .getSigners,
          .newContract d.address f.interface accounts.head?, .networkConfig chainId,
          .log (verifyLine entry.name d.address),
          .create ⟨d.address, f.interface, accounts.head?⟩ svg, .wait tx 1,
          .log createdLine, .tokenURI ⟨d.address, f.interface, accounts.head?⟩ 0,
          .log (tokenURILine uri)], .ok ())

/-- An environment in which every collaborator succeeds. -/
def goodEnv : Env where
  getNamedAccounts := .ok ⟨"0xA"⟩
  getChainId := .ok "4"
  deploy := fun _ _ => .ok ⟨"0xC0", ⟨["deployed"]⟩⟩
  readFileSync := fun _ _ => .ok "<svg/>"
  getContractFactory := fun _ => .ok ⟨⟨["factory"]⟩⟩
  getSigners := .ok [⟨"0xA"⟩, ⟨"0xB"⟩]
  contractThrows := fun _ _ _ => none
  networkConfig := fun c => if c = "4" then some ⟨"rinkeby"⟩ else none
  create := fun _ _ => .ok ⟨"0xT"⟩
  wait := fun tx n => .ok ⟨tx.hash, n⟩
  tokenURI := fun _ _ => .ok "data:x"

/-- The values returned in `goodEnv`. -/
def goodReturns : Returns where
  named := ⟨"0xA"⟩
  chainId := "4"
  SVGNFT := ⟨"0xC0", ⟨["deployed"]⟩⟩
  svg := "<svg/>"
  svgNFTContract := ⟨⟨["factory"]⟩⟩
  accounts := [⟨"0xA"⟩, ⟨"0xB"⟩]
  entry := ⟨"rinkeby"⟩
  transactionResponse := ⟨"0xT"⟩
  receipt := ⟨"0xT", 1⟩
  uri := "data:x"

/-- As `goodEnv`, on chain `"1337"`, which has no entry in the table. -/
def unknownChainEnv : Env := { goodEnv with getChainId := .ok "1337" }

/-- As `goodEnv`, with an empty asset file. -/
def emptySvgEnv : Env := { goodEnv with readFileSync := fun _ _ => .ok "" }

/-- As `goodEnv`, with `deploy` rejected. -/
def deployFailEnv : Env := { goodEnv with deploy := fun _ _ => .error (.rejected "deploy") }

/-- As `goodEnv`, with `create` rejected. -/
def createFailEnv : Env := { goodEnv with create := fun _ _ => .error (.rejected "create") }

/-- As `goodEnv`, with `wait` rejected. -/
def waitFailEnv : Env := { goodEnv with wait := fun _ _ => .error (.rejected "wait") }

/-- As `goodEnv`, with the final `tokenURI` read rejected. -/
def readFailEnv : Env := { goodEnv with tokenURI := fun _ _ => .error (.rejected "read") }

/-! ## Helper lemmas -/

theorem allSucceed_goodEnv : AllSucceed goodEnv goodReturns :=
  ⟨⟨rfl, rfl, rfl, rfl, rfl, rfl, rfl, rfl, rfl, rfl⟩, rfl⟩

theorem eachSplit_iff (P : List Event → Event → List Event → Prop) (t acc : List Event) :
    EachSplit P acc t ↔ ∀ pre ev post, t = pre ++ ev :: post → P (acc ++ pre) ev post := by
  induction t generalizing acc with
  | nil => simp [EachSplit]
  | cons x xs ih =>
    simp only [EachSplit, ih]
    constructor
    · rintro ⟨h0, h1⟩ pre ev post h
      cases pre with
      | nil =>
        simp only [List.nil_append, List.cons.injEq] at h
        obtain ⟨rfl, rfl⟩ := h
        simpa using h0
      | cons y ys =>
        simp only [List.cons_append, List.cons.injEq] at h
        obtain ⟨rfl, rfl⟩ := h
        simpa using h1 ys ev post rfl
    · intro h
      refine ⟨by simpa using h [] x xs rfl, ?_⟩
      intro pre ev post hp
      simpa using h (x :: pre) ev post (by simp [hp])

theorem forall_split_iff (P : List Event → Event → List Event → Prop) (t : List Event) :
    (∀ pre ev post, t = pre ++ ev :: post → P pre ev post) ↔ EachSplit P [] t := by
  simp [eachSplit_iff]

theorem firstChar_append (x y : String) (c : Char) (h : firstChar x = some c) :
    firstChar (x ++ y) = some c := by
  unfold firstChar at *
  rw [String.data_append]
  cases hx : x.data with
  | nil => simp [hx] at h
  | cons a as => simpa [hx] using h

theorem firstChar_separatorLine : firstChar separatorLine = some '-' := by decide

theorem firstChar_createdLine : firstChar createdLine = some 'N' := by decide

theorem firstChar_deployedLine (a : String) : firstChar (deployedLine a) = some 'Y' :=
  firstChar_append _ _ _ (by decide)

theorem firstChar_verifyLine (n a : String) : firstChar (verifyLine n a) = some 'V' :=
  firstChar_append _ _ _ (firstChar_append _ _ _ (firstChar_append _ _ _ (by decide)))

theorem firstChar_tokenURILine (u : String) : firstChar (tokenURILine u) = some 't' :=
  firstChar_append _ _ _ (by decide)

theorem ne_of_firstChar {a b : String} (h : firstChar a ≠ firstChar b) : a ≠ b := by
  intro hab
  exact h (by rw [hab])

@[simp] theorem separatorLine_ne_createdLine : ¬ separatorLine = createdLine := by decide

@[simp] theorem deployedLine_ne_createdLine (a : String) : ¬ deployedLine a = createdLine :=
  ne_of_firstChar (by rw [firstChar_deployedLine, firstChar_createdLine]; decide)

@[simp] theorem verifyLine_ne_createdLine (n a : String) : ¬ verifyLine n a = createdLine :=
  ne_of_firstChar (by rw [firstChar_verifyLine, firstChar_createdLine]; decide)

@[simp] theorem tokenURILine_ne_createdLine (u : String) : ¬ tokenURILine u = createdLine :=
  ne_of_firstChar (by rw [firstChar_tokenURILine, firstChar_createdLine]; decide)

@[simp] theorem separatorLine_ne_tokenURILine (u : String) : ¬ separatorLine = tokenURILine u :=
  ne_of_firstChar (by rw [firstChar_tokenURILine, firstChar_separatorLine]; decide)

@[simp] theorem deployedLine_ne_tokenURILine (a u : String) :
    ¬ deployedLine a = tokenURILine u :=
  ne_of_firstChar (by rw [firstChar_deployedLine, firstChar_tokenURILine]; decide)

@[simp] theorem verifyLine_ne_tokenURILine (n a u : String) :
    ¬ verifyLine n a = tokenURILine u :=
  ne_of_firstChar (by rw [firstChar_verifyLine, firstChar_tokenURILine]; decide)

@[simp] theorem createdLine_ne_tokenURILine (u : String) : ¬ createdLine = tokenURILine u :=
  ne_of_firstChar (by rw [firstChar_tokenURILine, firstChar_createdLine]; decide)

/-- In a run where every call succeeds the trace is the full straight line. -/
theorem run_of_allSucceed (env : Env) (r : Returns) (h : AllSucceed env r) :
    run env =
      ([.getNamedAccounts, .getChainId, .log separatorLine,
        .deploy "SVGNFT" ⟨r.named.deployer, true⟩, .log (deployedLine r.SVGNFT.address),
        .readFileSync filePath "utf-8", .getContractFactory "SVGNFT", .getSigners,
        .newContract r.SVGNFT.address r.svgNFTContract.interface r.accounts.head?,
        .networkConfig r.chainId, .log (verifyLine r.entry.name r.SVGNFT.address),
        .create r.svgNFT r.svg, .wait r.transactionResponse 1, .log createdLine,
        .tokenURI r.svgNFT 0, .log (tokenURILine r.uri)], .ok ()) := by
  obtain ⟨⟨h1, h2, h3, h4, h5, h6, h7, h8, h9, h10⟩, h11⟩ := h
  simp only [Returns.svgNFT] at h9 h11
  simp [run, bindAndVerify, mintAndReport, Returns.svgNFT, h1, h2, h3, h4, h5, h6, h7, h8, h9,
    h10, h11]

/-- In a run where every call up to `wait(1)` succeeds, the trace reaches the
`tokenURI` read and the result is the result of that read. -/
theorem run_of_mintConfirmed (env : Env) (r : Returns) (h : MintConfirmed env r) :
    run env =
      ([.getNamedAccounts, .getChainId, .log separatorLine,
        .deploy "SVGNFT" ⟨r.named.deployer, true⟩, .log (deployedLine r.SVGNFT.address),
        .readFileSync filePath "utf-8", .getContractFactory "SVGNFT", .getSigners,
        .newContract r.SVGNFT.address r.svgNFTContract.interface r.accounts.head?,
        .networkConfig r.chainId, .log (verifyLine r.entry.name r.SVGNFT.address),
        .create r.svgNFT r.svg, .wait r.transactionResponse 1, .log createdLine,
        .tokenURI r.svgNFT 0] ++
        (match env.tokenURI r.svgNFT 0 with
          | .ok uri => [.log (tokenURILine uri)]
          | .error _ => []),
       (env.tokenURI r.svgNFT 0).map (fun _ => ())) := by
  obtain ⟨h1, h2, h3, h4, h5, h6, h7, h8, h9, h10⟩ := h
  simp only [Returns.svgNFT] at h9 ⊢
  cases h11 : env.tokenURI ⟨r.SVGNFT.address, r.svgNFTContract.interface, r.accounts.head?⟩ 0 <;>
  simp [run, bindAndVerify, mintAndReport, h1, h2, h3, h4, h5, h6, h7, h8, h9,
    h10, h11, Except.map]

/-- Every run ends in one of the twelve cases of `RunCase`. -/
theorem runCase_run (env : Env) : RunCase env (run env) := by
  simp only [run, bindAndVerify, mintAndReport]
  repeat' split
  all_goals try simp only [List.append_assoc, List.cons_append, List.nil_append]
  all_goals constructor <;> assumption

/-- A run succeeds exactly when every collaborator call it makes succeeds. -/
theorem result_ok_iff (env : Env) : result env = .ok () ↔ ∃ r, AllSucceed env r := by
  constructor
  · have h := runCase_run env
    simp only [result]
    generalize run env = o at h ⊢
    cases h <;> simp
    case succeeds named chainId d svg f accounts entry tx receipt uri h1 h2 h3 h4 h5 h6 h7 h8 h9 h10 h11 =>
      exact ⟨⟨named, chainId, d, svg, f, accounts, entry, tx, receipt, uri⟩,
        ⟨⟨h1, h2, h3, h4, h5, h6, h7, h8, h9, h10⟩, h11⟩⟩
  · rintro ⟨r, h⟩
    simp [result, run_of_allSucceed env r h]

/-! ## C1: a chain id without a table entry -/

/-- C1, as stated, fails: on chain `"1337"`, which has no entry in the table,
the run ends with the `TypeError` of the lookup, but `deploy` has been called
once before that. -/
theorem unknownChain_deploy_called :
    unknownChainEnv.getChainId = .ok "1337" ∧ unknownChainEnv.networkConfig "1337" = none ∧
    result unknownChainEnv = .error undefinedNameError ∧
    ((trace unknownChainEnv).filter Event.isDeploy).length = 1 :=
  ⟨rfl, rfl, rfl, rfl⟩

/-- Where a failing table lookup sits: for a chain id without an entry, every
occurrence of the lookup in a trace is its last event, and the events before it
are exactly the nine of lines 8-29, ending with the `deploy` call, the
announcement, the asset read, the factory lookup, the signers read and the
construction of the handle, all successful. -/
theorem lookup_position (env : Env) (c : String) (hn : env.networkConfig c = none) :
    ∀ pre ev post, trace env = pre ++ ev :: post → ev = Event.networkConfig c →
      post = [] ∧
      ∃ named d svg f accounts,
        env.getNamedAccounts = .ok named ∧
        env.deploy "SVGNFT" ⟨named.deployer, true⟩ = .ok d ∧
        env.readFileSync filePath "utf-8" = .ok svg ∧
        env.getContractFactory "SVGNFT" = .ok f ∧
        env.getSigners = .ok accounts ∧
        env.contractThrows d.address f.interface accounts.head? = none ∧
        pre = [.getNamedAccounts, .getChainId, .log separatorLine,
          .deploy "SVGNFT" ⟨named.deployer, true⟩, .log (deployedLine d.address),
          .readFileSync filePath "utf-8", .getContractFactory "SVGNFT", .getSigners,
          .newContract d.address f.interface accounts.head?] := by
  rw [forall_split_iff]
  have h := runCase_run env
  simp only [trace]
  generalize run env = o at h ⊢
  cases h <;> simp [EachSplit]
  all_goals
    intro hcc
    subst hcc
    simp_all

/-- C1, amended: for a chain id without a table entry the run fails and never
calls `create`, `wait` or `tokenURI`; `deploy` is called once as soon as the
account and chain id reads succeed; the lookup comes only after that call and
after the binding of the handle: it is the last event of the trace, the events
before it are exactly the account read, the chain id read, the separator, the
successful `deploy`, the announcement, the asset read, the factory lookup, the
signers read and the successful construction of the handle; and a run that
reaches the lookup ends with its `TypeError`. -/
theorem unknown_chain_fails_after_deploy (env : Env) (c : String)
    (hc : env.getChainId = .ok c) (hn : env.networkConfig c = none) :
    (∃ e, result env = .error e) ∧
    (∀ ev ∈ trace env, ev.isCreate = false ∧ ev.isWait = false ∧ ev.isTokenURI = false) ∧
    (∀ named, env.getNamedAccounts = .ok named →
      (trace env).filter Event.isDeploy = [Event.deploy "SVGNFT" ⟨named.deployer, true⟩]) ∧
    (Event.networkConfig c ∈ trace env → result env = .error undefinedNameError) ∧
    (∀ pre post, trace env = pre ++ Event.networkConfig c :: post →
      (∃ o, Event.deploy "SVGNFT" o ∈ pre) ∧
      (∃ a i s, Event.newContract a i s ∈ pre ∧ env.contractThrows a i s = none) ∧
      post = [] ∧
      ∃ named d svg f accounts,
        env.getNamedAccounts = .ok named ∧
        env.deploy "SVGNFT" ⟨named.deployer, true⟩ = .ok d ∧
        env.readFileSync filePath "utf-8" = .ok svg ∧
        env.getContractFactory "SVGNFT" = .ok f ∧
        env.getSigners = .ok accounts ∧
        env.contractThrows d.address f.interface accounts.head? = none ∧
        pre = [.getNamedAccounts, .getChainId, .log separatorLine,
          .deploy "SVGNFT" ⟨named.deployer, true⟩, .log (deployedLine d.address),
          .readFileSync filePath "utf-8", .getContractFactory "SVGNFT", .getSigners,
          .newContract d.address f.interface accounts.head?]) := by
  refine ⟨?_, ?_, ?_, ?_, ?_⟩
  · have h := runCase_run env
    simp only [trace, result]
    generalize run env = o at h ⊢
    cases h <;> simp_all [Event.isCreate, Event.isWait, Event.isTokenURI, Event.isDeploy]
  · have h := runCase_run env
    simp only [trace, result]
    generalize run env = o at h ⊢
    cases h <;> simp_all [Event.isCreate, Event.isWait, Event.isTokenURI, Event.isDeploy]
  · have h := runCase_run env
    simp only [trace, result]
    generalize run env = o at h ⊢
    cases h <;> simp_all [Event.isCreate, Event.isWait, Event.isTokenURI, Event.isDeploy]
  · have h := runCase_run env
    simp only [trace, result]
    generalize run env = o at h ⊢
    cases h <;> simp_all [Event.isCreate, Event.isWait, Event.isTokenURI, Event.isDeploy]
  · intro pre post ht
    obtain ⟨hpost, named, d, svg, f, accounts, h1, h3, h4, h5, h6, h7, hpre⟩ :=
      lookup_position env c hn pre _ post ht rfl
    refine ⟨⟨⟨named.deployer, true⟩, ?_⟩, ⟨d.address, f.interface, accounts.head?, ?_, h7⟩,
      hpost, named, d, svg, f, accounts, h1, h3, h4, h5, h6, h7, hpre⟩
    · simp [hpre]
    · simp [hpre]

/-- Witness for `unknown_chain_fails_after_deploy`, on chain `"1337"`. -/
theorem unknown_chain_fails_after_deploy_witness :
    (∃ e, result unknownChainEnv = .error e) ∧
    (∀ ev ∈ trace unknownChainEnv,
      ev.isCreate = false ∧ ev.isWait = false ∧ ev.isTokenURI = false) ∧
    (∀ named, unknownChainEnv.getNamedAccounts = .ok named →
      (trace unknownChainEnv).filter Event.isDeploy =
        [Event.deploy "SVGNFT" ⟨named.deployer, true⟩]) ∧
    (Event.networkConfig "1337" ∈ trace unknownChainEnv →
      result unknownChainEnv = .error undefinedNameError) ∧
    (∀ pre post, trace unknownChainEnv = pre ++ Event.networkConfig "1337" :: post →
      (∃ o, Event.deploy "SVGNFT" o ∈ pre) ∧
      (∃ a i s, Event.newContract a i s ∈ pre ∧ unknownChainEnv.contractThrows a i s = none) ∧
      post = [] ∧
      ∃ named d svg f accounts,
        unknownChainEnv.getNamedAccounts = .ok named ∧
        unknownChainEnv.deploy "SVGNFT" ⟨named.deployer, true⟩ = .ok d ∧
        unknownChainEnv.readFileSync filePath "utf-8" = .ok svg ∧
        unknownChainEnv.getContractFactory "SVGNFT" = .ok f ∧
        unknownChainEnv.getSigners = .ok accounts ∧
        unknownChainEnv.contractThrows d.address f.interface accounts.head? = none ∧
        pre = [.getNamedAccounts, .getChainId, .log separatorLine,
          .deploy "SVGNFT" ⟨named.deployer, true⟩, .log (deployedLine d.address),
          .readFileSync filePath "utf-8", .getContractFactory "SVGNFT", .getSigners,
          .newContract d.address f.interface accounts.head?]) :=
  unknown_chain_fails_after_deploy unknownChainEnv "1337" rfl rfl

/-! ## C3: one confirmation before the notice and the read -/

/-- C3: every `wait` call of a run asks for exactly 1 confirmation, and every
occurrence of the mint notice or of a `tokenURI` read is preceded in the trace by
a `create` call and a `wait(1)` call on its transaction that both succeeded. -/
theorem notice_and_read_after_wait_one (env : Env) :
    (∀ tx n, Event.wait tx n ∈ trace env → n = 1) ∧
    (∀ pre ev post, trace env = pre ++ ev :: post →
      (ev = Event.log createdLine ∨ ev.isTokenURI = true) →
      ∃ c svg tx receipt, Event.create c svg ∈ pre ∧ Event.wait tx 1 ∈ pre ∧
        env.create c svg = .ok tx ∧ env.wait tx 1 = .ok receipt) := by
  constructor
  · have h := runCase_run env
    simp only [trace]
    generalize run env = o at h ⊢
    cases h <;> simp
  · rw [forall_split_iff]
    have h := runCase_run env
    simp only [trace]
    generalize run env = o at h ⊢
    cases h <;> simp [*, EachSplit, Event.isTokenURI]
    all_goals exact ⟨_, _, ⟨rfl, rfl⟩, by assumption⟩

/-- Witness for `notice_and_read_after_wait_one`: the mint notice of the
successful run of `goodEnv`, at position 13 of its trace. -/
theorem notice_and_read_after_wait_one_witness :
    ∃ c svg tx receipt, Event.create c svg ∈ (trace goodEnv).take 13 ∧
      Event.wait tx 1 ∈ (trace goodEnv).take 13 ∧
      goodEnv.create c svg = .ok tx ∧ goodEnv.wait tx 1 = .ok receipt :=
  (notice_and_read_after_wait_one goodEnv).2 ((trace goodEnv).take 13)
    (Event.log createdLine) ((trace goodEnv).drop 14) rfl (Or.inl rfl)

/-! ## C4: fail-fast -/

theorem deploy_failure_aborts (env : Env) (e : Error) :
    ∀ name o, Event.deploy name o ∈ trace env → env.deploy name o = .error e →
      result env = .error e ∧
      ∀ ev ∈ trace env, ev.isNewContract = false ∧ ev.isCreate = false ∧
        ev.isWait = false ∧ ev.isTokenURI = false := by
  have h := runCase_run env
  simp only [trace, result]
  generalize run env = o at h ⊢
  cases h <;>
    simp [*, Event.isNewContract, Event.isCreate, Event.isWait, Event.isTokenURI]

theorem create_failure_aborts (env : Env) (e : Error) :
    ∀ c svg, Event.create c svg ∈ trace env → env.create c svg = .error e →
      result env = .error e ∧
      ∀ ev ∈ trace env, ev.isTokenURI = false ∧ ev ≠ Event.log createdLine ∧
        ∀ u, ev ≠ Event.log (tokenURILine u) := by
  have h := runCase_run env
  simp only [trace, result]
  generalize run env = o at h ⊢
  cases h <;> simp [*, Event.isTokenURI]

theorem wait_failure_aborts (env : Env) (e : Error) :
    ∀ tx, Event.wait tx 1 ∈ trace env → env.wait tx 1 = .error e →
      result env = .error e ∧
      ∀ ev ∈ trace env, ev.isTokenURI = false ∧ ev ≠ Event.log createdLine ∧
        ∀ u, ev ≠ Event.log (tokenURILine u) := by
  have h := runCase_run env
  simp only [trace, result]
  generalize run env = o at h ⊢
  cases h <;> simp [*, Event.isTokenURI]

theorem failing_call_is_last (env : Env) (e : Error) :
    ∀ pre ev post, trace env = pre ++ ev :: post → FailsWith env e ev →
      post = [] ∧ result env = .error e := by
  rw [forall_split_iff]
  have h := runCase_run env
  simp only [trace, result]
  generalize run env = o at h ⊢
  cases h <;> simp [*, EachSplit, FailsWith]
  exact fun h => h.symm

theorem failed_run_ends_on_failing_call (env : Env) (e : Error) :
    result env = .error e → ∃ ev, (trace env).getLast? = some ev ∧ FailsWith env e ev := by
  have h := runCase_run env
  simp only [trace, result]
  generalize run env = o at h ⊢
  cases h <;> simp [*, FailsWith]
  exact fun h => h.symm

/-- C4: a failed `deploy` ends the run with its error before any handle is
bound and before `create`, `wait` or `tokenURI`; a failed `create` or `wait(1)`
ends the run with its error before `tokenURI`, the mint notice and the token URI
line; in general the call that fails is the last event of the trace and its error
is the result of the run, and a failed run ends on the call that failed. -/
theorem failure_aborts_pipeline (env : Env) (e : Error) :
    (∀ name o, Event.deploy name o ∈ trace env → env.deploy name o = .error e →
      result env = .error e ∧
      ∀ ev ∈ trace env, ev.isNewContract = false ∧ ev.isCreate = false ∧
        ev.isWait = false ∧ ev.isTokenURI = false) ∧
    (∀ c svg, Event.create c svg ∈ trace env → env.create c svg = .error e →
      result env = .error e ∧
      ∀ ev ∈ trace env, ev.isTokenURI = false ∧ ev ≠ Event.log createdLine ∧
        ∀ u, ev ≠ Event.log (tokenURILine u)) ∧
    (∀ tx, Event.wait tx 1 ∈ trace env → env.wait tx 1 = .error e →
      result env = .error e ∧
      ∀ ev ∈ trace env, ev.isTokenURI = false ∧ ev ≠ Event.log createdLine ∧
        ∀ u, ev ≠ Event.log (tokenURILine u)) ∧
    (∀ pre ev post, trace env = pre ++ ev :: post → FailsWith env e ev →
      post = [] ∧ result env = .error e) ∧
    (result env = .error e → ∃ ev, (trace env).getLast? = some ev ∧ FailsWith env e ev) :=
  ⟨deploy_failure_aborts env e, create_failure_aborts env e, wait_failure_aborts env e,
    failing_call_is_last env e, failed_run_ends_on_failing_call env e⟩

/-- Witness for `failure_aborts_pipeline`: rejected `deploy`, `create` and
`wait` calls each end the run with their own error. -/
theorem failure_aborts_pipeline_witness :
    result deployFailEnv = .error (.rejected "deploy") ∧
    result createFailEnv = .error (.rejected "create") ∧
    result waitFailEnv = .error (.rejected "wait") :=
  ⟨((failure_aborts_pipeline deployFailEnv (.rejected "deploy")).1
      "SVGNFT" ⟨"0xA", true⟩ (by decide) rfl).1,
   ((failure_aborts_pipeline createFailEnv (.rejected "create")).2.1
      ⟨"0xC0", ⟨["factory"]⟩, some ⟨"0xA"⟩⟩ "<svg/>" (by decide) rfl).1,
   ((failure_aborts_pipeline waitFailEnv (.rejected "wait")).2.2.1
      ⟨"0xT"⟩ (by decide) rfl).1⟩

/-! ## C2: the straight line of a successful run -/

/-- C2, as stated, fails: in a run where every collaborator succeeds the
network name lookup (resolver) comes after the deployer and the binder, so the
components are not visited in the order resolver, deployer, binder, mint,
reporter. -/
theorem goodEnv_lookup_after_binder :
    result goodEnv = .ok () ∧
    steps (trace goodEnv) =
      [.resolver, .deployer, .binder, .resolver, .mint, .mint, .reporter] ∧
    ¬ (steps (trace goodEnv)).Pairwise (fun a b => a.rank ≤ b.rank) := by
  refine ⟨rfl, rfl, ?_⟩
  rw [show steps (trace goodEnv) =
    [.resolver, .deployer, .binder, .resolver, .mint, .mint, .reporter] from rfl]
  decide

/-- C2, amended: when every collaborator succeeds the run succeeds and its
trace is exactly one fixed sequence, each call made once: account read, chain id
read, `deploy("SVGNFT")`, asset read, factory lookup, signers read, handle
binding, network name lookup, `create(svg)`, `wait(1)`, `tokenURI(0)`, with the
five log lines in between; the name lookup sits between binder and mint. -/
theorem success_trace_is_linear (env : Env) (r : Returns) (h : AllSucceed env r) :
    result env = .ok () ∧
    trace env =
      [.getNamedAccounts, .getChainId, .log separatorLine,
        .deploy "SVGNFT" ⟨r.named.deployer, true⟩, .log (deployedLine r.SVGNFT.address),
        .readFileSync filePath "utf-8", .getContractFactory "SVGNFT", .getSigners,
        .newContract r.SVGNFT.address r.svgNFTContract.interface r.accounts.head?,
        .networkConfig r.chainId, .log (verifyLine r.entry.name r.SVGNFT.address),
        .create r.svgNFT r.svg, .wait r.transactionResponse 1, .log createdLine,
        .tokenURI r.svgNFT 0, .log (tokenURILine r.uri)] ∧
    steps (trace env) =
      [.resolver, .deployer, .binder, .resolver, .mint, .mint, .reporter] := by
  simp [trace, result, run_of_allSucceed env r h, steps, Event.step]

/-- Witness for `success_trace_is_linear`, at `goodEnv`. -/
theorem success_trace_is_linear_witness :
    result goodEnv = .ok () ∧
    trace goodEnv =
      [.getNamedAccounts, .getChainId, .log separatorLine,
        .deploy "SVGNFT" ⟨"0xA", true⟩, .log (deployedLine "0xC0"),
        .readFileSync filePath "utf-8", .getContractFactory "SVGNFT", .getSigners,
        .newContract "0xC0" ⟨["factory"]⟩ (some ⟨"0xA"⟩),
        .networkConfig "4", .log (verifyLine "rinkeby" "0xC0"),
        .create ⟨"0xC0", ⟨["factory"]⟩, some ⟨"0xA"⟩⟩ "<svg/>", .wait ⟨"0xT"⟩ 1,
        .log createdLine, .tokenURI ⟨"0xC0", ⟨["factory"]⟩, some ⟨"0xA"⟩⟩ 0,
        .log (tokenURILine "data:x")] ∧
    steps (trace goodEnv) =
      [.resolver, .deployer, .binder, .resolver, .mint, .mint, .reporter] :=
  success_trace_is_linear goodEnv goodReturns
    ⟨⟨rfl, rfl, rfl, rfl, rfl, rfl, rfl, rfl, rfl, rfl⟩, rfl⟩

/-! ## C5: a failed final read -/

/-- C5, as stated, fails: with `deploy`, `create` and `wait(1)` successful and
the final `tokenURI` read rejected, the run is not successful; its result is the
rejection of the read. -/
theorem readFail_run_not_successful :
    readFailEnv.deploy "SVGNFT" ⟨"0xA", true⟩ = .ok ⟨"0xC0", ⟨["deployed"]⟩⟩ ∧
    readFailEnv.create goodReturns.svgNFT "<svg/>" = .ok ⟨"0xT"⟩ ∧
    readFailEnv.wait ⟨"0xT"⟩ 1 = .ok ⟨"0xT", 1⟩ ∧
    readFailEnv.tokenURI goodReturns.svgNFT 0 = .error (.rejected "read") ∧
    result readFailEnv = .error (.rejected "read") ∧
    result readFailEnv ≠ .ok () := by
  refine ⟨rfl, rfl, rfl, rfl, rfl, ?_⟩
  rw [show result readFailEnv = .error (.rejected "read") from rfl]
  exact fun h => nomatch h

/-- C5, amended: when every call up to `wait(1)` succeeds and the final
`tokenURI` read fails, the run fails with the error of the read, like any other
step; the failing read is the last event, the mint notice has been logged before
it and no token URI line is logged. -/
theorem read_failure_fails_run (env : Env) (r : Returns) (e : Error)
    (h : MintConfirmed env r) (hr : env.tokenURI r.svgNFT 0 = .error e) :
    result env = .error e ∧
    (trace env).getLast? = some (Event.tokenURI r.svgNFT 0) ∧
    logLines (trace env) =
      [separatorLine, deployedLine r.SVGNFT.address,
        verifyLine r.entry.name r.SVGNFT.address, createdLine] := by
  simp [trace, result, run_of_mintConfirmed env r h, hr, Except.map, logLines, Event.logLine]

/-- Witness for `read_failure_fails_run`, at `readFailEnv`. -/
theorem read_failure_fails_run_witness :
    result readFailEnv = .error (.rejected "read") ∧
    (trace readFailEnv).getLast? = some (Event.tokenURI goodReturns.svgNFT 0) ∧
    logLines (trace readFailEnv) =
      [separatorLine, deployedLine "0xC0", verifyLine "rinkeby" "0xC0", createdLine] :=
  read_failure_fails_run readFailEnv goodReturns (.rejected "read")
    ⟨rfl, rfl, rfl, rfl, rfl, rfl, rfl, rfl, rfl, rfl⟩ rfl

/-! ## C6: the index read back -/

/-- C6, as stated, fails: on a contract that already holds one token the
`create` of this run is assigned index 1, while the script reads `tokenURI(0)`. -/
theorem reused_deployment_reads_index_zero :
    result goodEnv = .ok () ∧
    tokenURIIndices (trace goodEnv) = [0] ∧
    assignedIndices ⟨1⟩ (trace goodEnv) = [1] ∧
    tokenURIIndices (trace goodEnv) ≠ assignedIndices ⟨1⟩ (trace goodEnv) := by
  refine ⟨rfl, rfl, rfl, ?_⟩
  rw [show tokenURIIndices (trace goodEnv) = [0] from rfl,
    show assignedIndices ⟨1⟩ (trace goodEnv) = [1] from rfl]
  decide

/-- C6, amended: in every run that reaches the read, the only `tokenURI` call
reads the constant index 0, whatever the state of the contract; replayed on the
token counter the single `create` of the run is assigned the prior counter, so
the index read is the index minted exactly when the contract held no token
before (a fresh deployment). -/
theorem tokenURI_index_is_zero (env : Env) (r : Returns) (prior : SVGNFTState)
    (h : MintConfirmed env r) :
    tokenURIIndices (trace env) = [0] ∧
    assignedIndices prior (trace env) = [prior.tokenCounter] ∧
    (tokenURIIndices (trace env) = assignedIndices prior (trace env) ↔
      prior.tokenCounter = 0) := by
  have ht : tokenURIIndices (trace env) = [0] := by
    rw [trace, run_of_mintConfirmed env r h]
    cases env.tokenURI r.svgNFT 0 <;> simp [tokenURIIndices, Event.tokenIndex]
  have ha : assignedIndices prior (trace env) = [prior.tokenCounter] := by
    rw [trace, run_of_mintConfirmed env r h]
    cases env.tokenURI r.svgNFT 0 <;> simp [assignedIndices, SVGNFTState.create]
  refine ⟨ht, ha, ?_⟩
  rw [ht, ha]
  simp [eq_comm]

/-- Witness for `tokenURI_index_is_zero`: `goodEnv` on a fresh contract. -/
theorem tokenURI_index_is_zero_witness :
    tokenURIIndices (trace goodEnv) = [0] ∧
    assignedIndices ⟨0⟩ (trace goodEnv) = [0] ∧
    (tokenURIIndices (trace goodEnv) = assignedIndices ⟨0⟩ (trace goodEnv) ↔
      (0 : Nat) = 0) :=
  tokenURI_index_is_zero goodEnv goodReturns ⟨0⟩
    ⟨rfl, rfl, rfl, rfl, rfl, rfl, rfl, rfl, rfl, rfl⟩

/-! ## C7: the seed content reaches `create` unmodified -/

/-- C7: whenever a run calls `create`, its argument is exactly the string
returned by the read of the asset file, and that call is the only `create` call
of the run. -/
theorem create_argument_is_file_content (env : Env) (c : Contract) (s : String)
    (h : Event.create c s ∈ trace env) :
    env.readFileSync filePath "utf-8" = .ok s ∧
    (trace env).filter Event.isCreate = [Event.create c s] := by
  have hc := runCase_run env
  simp only [trace] at h ⊢
  generalize run env = o at hc h ⊢
  cases hc <;> simp [Event.isCreate] at h ⊢
  all_goals
    obtain ⟨rfl, rfl⟩ := h
    exact ⟨by assumption, rfl, rfl⟩

/-- Witness for `create_argument_is_file_content`, with an empty asset file. -/
theorem create_argument_is_file_content_witness :
    emptySvgEnv.readFileSync filePath "utf-8" = .ok "" ∧
    (trace emptySvgEnv).filter Event.isCreate =
      [Event.create ⟨"0xC0", ⟨["factory"]⟩, some ⟨"0xA"⟩⟩ ""] :=
  create_argument_is_file_content emptySvgEnv ⟨"0xC0", ⟨["factory"]⟩, some ⟨"0xA"⟩⟩ ""
    (by decide)

/-! ## C8: the log lines of a successful run -/

/-- C8: in a successful run the script logs, after the separator, the deployed
address announcement, the verification command, the mint notice and the token URI
line, in this order; both addresses are the address returned by `deploy`, and the
verification command ends with `verify --network <name> <address>` for the name
of the chain id in the table. -/
theorem success_log_lines (env : Env) (r : Returns) (h : AllSucceed env r) :
    logLines (trace env) =
      [separatorLine, deployedLine r.SVGNFT.address,
        verifyLine r.entry.name r.SVGNFT.address, createdLine, tokenURILine r.uri] ∧
    deployedLine r.SVGNFT.address =
      "You have deployed an NFT contract to " ++ r.SVGNFT.address ∧
    verifyLine r.entry.name r.SVGNFT.address =
      "Verify with:\n npx hardhat " ++
        ("verify --network " ++ r.entry.name ++ " " ++ r.SVGNFT.address) ∧
    env.deploy "SVGNFT" ⟨r.named.deployer, true⟩ = .ok r.SVGNFT ∧
    env.getChainId = .ok r.chainId ∧
    env.networkConfig r.chainId = some r.entry := by
  refine ⟨?_, rfl, ?_, h.confirmed.deploy, h.confirmed.getChainId, h.confirmed.networkConfig⟩
  · simp [trace, run_of_allSucceed env r h, logLines, Event.logLine]
  · simp only [verifyLine, ← String.append_assoc]
    rfl

/-- Witness for `success_log_lines`, at `goodEnv`. -/
theorem success_log_lines_witness :
    logLines (trace goodEnv) =
      [separatorLine, deployedLine "0xC0", verifyLine "rinkeby" "0xC0", createdLine,
        tokenURILine "data:x"] ∧
    deployedLine "0xC0" = "You have deployed an NFT contract to " ++ "0xC0" ∧
    verifyLine "rinkeby" "0xC0" =
      "Verify with:\n npx hardhat " ++ ("verify --network " ++ "rinkeby" ++ " " ++ "0xC0") ∧
    goodEnv.deploy "SVGNFT" ⟨"0xA", true⟩ = .ok ⟨"0xC0", ⟨["deployed"]⟩⟩ ∧
    goodEnv.getChainId = .ok "4" ∧
    goodEnv.networkConfig "4" = some ⟨"rinkeby"⟩ :=
  success_log_lines goodEnv goodReturns ⟨⟨rfl, rfl, rfl, rfl, rfl, rfl, rfl, rfl, rfl, rfl⟩, rfl⟩

/-! ## C9: the token URI line -/

/-- C9, as stated, fails: in the successful run of `goodEnv`, where the read
returns `data:x`, the last line is not `token URI: data:x` with one blank. -/
theorem goodEnv_last_line_not_one_blank :
    result goodEnv = .ok () ∧
    goodEnv.tokenURI goodReturns.svgNFT 0 = .ok "data:x" ∧
    (logLines (trace goodEnv)).getLast? ≠ some ("token URI: " ++ "data:x") := by
  refine ⟨rfl, rfl, ?_⟩
  rw [show (logLines (trace goodEnv)).getLast? = some "token URI:  data:x" from rfl]
  decide

/-- C9, amended: in a successful run the last log line is `token URI:`, two
blanks, then the string returned by the `tokenURI` read, unmodified. -/
theorem last_line_is_token_uri (env : Env) (r : Returns) (h : AllSucceed env r) :
    (logLines (trace env)).getLast? = some ("token URI:  " ++ r.uri) ∧
    tokenURILine r.uri = "token URI:  " ++ r.uri := by
  simp [trace, run_of_allSucceed env r h, logLines, Event.logLine, tokenURILine]

/-- Witness for `last_line_is_token_uri`, at `goodEnv`. -/
theorem last_line_is_token_uri_witness :
    (logLines (trace goodEnv)).getLast? = some ("token URI:  " ++ "data:x") ∧
    tokenURILine "data:x" = "token URI:  " ++ "data:x" :=
  last_line_is_token_uri goodEnv goodReturns
    ⟨⟨rfl, rfl, rfl, rfl, rfl, rfl, rfl, rfl, rfl, rfl⟩, rfl⟩

/-! ## C10: where the handle comes from -/

/-- C10, as stated, fails: in `goodEnv` the handle used for `create` and
`tokenURI` carries the interface of the factory looked up by name, which is not
the interface descriptor of the deploy result. -/
theorem goodEnv_handle_interface_not_from_deploy :
    contractsUsed (trace goodEnv) =
      [⟨"0xC0", ⟨["factory"]⟩, some ⟨"0xA"⟩⟩, ⟨"0xC0", ⟨["factory"]⟩, some ⟨"0xA"⟩⟩] ∧
    goodEnv.deploy "SVGNFT" ⟨"0xA", true⟩ = .ok ⟨"0xC0", ⟨["deployed"]⟩⟩ ∧
    ∃ c ∈ contractsUsed (trace goodEnv), ∃ d, goodEnv.deploy "SVGNFT" ⟨"0xA", true⟩ = .ok d ∧
      c.interface ≠ d.abi := by
  refine ⟨rfl, rfl, ⟨"0xC0", ⟨["factory"]⟩, some ⟨"0xA"⟩⟩, ?_, ⟨"0xC0", ⟨["deployed"]⟩⟩, rfl, ?_⟩
  · rw [show contractsUsed (trace goodEnv) =
      [⟨"0xC0", ⟨["factory"]⟩, some ⟨"0xA"⟩⟩, ⟨"0xC0", ⟨["factory"]⟩, some ⟨"0xA"⟩⟩] from rfl]
    decide
  · decide

/-- C10, amended: every handle used for `create` or `tokenURI` has the address
of the deploy result, the interface of the factory returned by
`getContractFactory("SVGNFT")` and, as signer, the first account returned by
`getSigners` (none when the list is empty); nothing else enters the handle. -/
theorem handle_components (env : Env) (c : Contract) (h : c ∈ contractsUsed (trace env)) :
    ∃ named d f accounts,
      env.getNamedAccounts = .ok named ∧
      env.deploy "SVGNFT" ⟨named.deployer, true⟩ = .ok d ∧
      env.getContractFactory "SVGNFT" = .ok f ∧
      env.getSigners = .ok accounts ∧
      c = ⟨d.address, f.interface, accounts.head?⟩ := by
  have hc := runCase_run env
  simp only [trace] at h
  generalize run env = o at hc h
  cases hc <;> simp [contractsUsed, Event.contract] at h
  all_goals
    subst h
    exact ⟨_, _, _, _, by assumption, by assumption, by assumption, by assumption, rfl⟩

/-- Witness for `handle_components`, at `goodEnv`. -/
theorem handle_components_witness :
    ∃ named d f accounts,
      goodEnv.getNamedAccounts = .ok named ∧
      goodEnv.deploy "SVGNFT" ⟨named.deployer, true⟩ = .ok d ∧
      goodEnv.getContractFactory "SVGNFT" = .ok f ∧
      goodEnv.getSigners = .ok accounts ∧
      (⟨"0xC0", ⟨["factory"]⟩, some ⟨"0xA"⟩⟩ : Contract) =
        ⟨d.address, f.interface, accounts.head?⟩ :=
  handle_components goodEnv ⟨"0xC0", ⟨["factory"]⟩, some ⟨"0xA"⟩⟩ (by decide)

end SVGNFTDeploy
